import Mathlib

/-!
Verification of the funda-finder reconciliation + scoring pipeline.

The definitions below are a shallow embedding of the Python source:

* `src/funda_finder/etl.py` — the ETL load stage (`ETLPipeline._load`,
  `_insert_property`, `_update_property`, `_mark_inactive`);
* `src/funda_finder/analysis/analyzer.py` — the analysis engine
  (`PropertyAnalyzer`);
* `src/funda_finder/validation/converters.py` — batch validation.

Conventions of the embedding:

* Timestamps (`scraped_at`, `observed_at`, `updated_at`, "now") are modelled
  as `Int` seconds since an epoch; `timedelta.days` floors, hence `Int.fdiv`
  by 86400.
* Python floats are modelled as `ℚ`; prices are `Int` (the validated model
  declares `price: int`), nullable columns are `Option`.
* The SQLAlchemy session is modelled as a pair of database states:
  `committed` (what past commits persisted) and `current` (the state the
  session sees, including uncommitted work).  `session.rollback()` resets
  `current` to `committed`; `session.commit()` copies `current` into
  `committed`.
* Exceptions are modelled by `Except`-valued functions.  The `Property`
  model (db/models.py lines 14-52) declares no `bathrooms` column, while
  etl.py passes `bathrooms=listing.bathrooms` to the constructor (line 434)
  and reads `getattr(existing, "bathrooms")` in the field loop (lines
  497, 506-507): the first raises `TypeError`, the second `AttributeError`,
  so in the source every per-listing load attempt fails and is caught,
  rolled back and counted by the handlers in `_load`.  The per-batch
  `session.commit()` guard (line 399) is kept as the `commit_fails` oracle;
  the theorems instantiate it with `noCommitFail`, since a session with no
  pending changes has nothing to fail on.
-/

namespace FundaFinder

/-- Validated listing, embedding `PropertyListing`
(`src/funda_finder/validation/models.py`).  The validator guarantees
`price > 0` and `living_area > 0` when present; the fields here carry the
values as typed by the model. -/
structure Listing where
  funda_id : String
  url : String
  city : String
  price : Int
  listing_type : String
  address : Option String
  postal_code : Option String
  lat : Option ℚ
  lon : Option ℚ
  living_area : Option ℚ
  plot_area : Option ℚ
  rooms : Option Int
  bedrooms : Option Int
  bathrooms : Option Int
  year_built : Option Int
  energy_label : Option String
  description : Option String
  source : Option String
  scraped_at : Int
deriving DecidableEq

/-- Persisted `Property` row (`src/funda_finder/db/models.py` lines 14-52).
The model declares `rooms`, `bedrooms`, `year_built`, … but — deliberately
mirrored here — NO `bathrooms` column; `raw_source` stands for the
`raw_json` source payload. -/
structure PropertyRow where
  id : Nat
  funda_id : String
  url : String
  address : String
  city : String
  postal_code : Option String
  price : Option Int
  living_area : Option Int
  plot_area : Option Int
  rooms : Option Int
  bedrooms : Option Int
  year_built : Option Int
  energy_label : Option String
  listing_type : String
  status : String
  lat : Option ℚ
  lon : Option ℚ
  description : Option String
  raw_source : Option String
  scraped_at : Int
  updated_at : Int
deriving DecidableEq

/-- Persisted `PriceHistory` row (`src/funda_finder/db/models.py`). -/
structure HistRow where
  property_id : Nat
  price : Int
  observed_at : Int
deriving DecidableEq

/-- Database state: property table, append-only price-history table, and the
next autoincrement primary key. -/
structure DBState where
  props : List PropertyRow
  history : List HistRow
  next_id : Nat
deriving DecidableEq

/-- SQLAlchemy session model: `committed` is the state as of the last commit,
`current` is the state the session is working on (committed plus pending
uncommitted changes). -/
structure SessionState where
  committed : DBState
  current : DBState
deriving DecidableEq

/-- Counts returned by `ETLPipeline._load`:
`(new_count, updated_count, inactive_count, error_count)`. -/
structure LoadCounts where
  new : Nat
  updated : Nat
  inactive : Nat
  errors : Nat
deriving DecidableEq

/-! ## ETL load stage (`src/funda_finder/etl.py`) -/

/-- Python `int(x)` truncation toward zero on a rational. -/
def pyTrunc (q : ℚ) : Int := q.num.tdiv q.den

/-- Embeds `int(listing.living_area) if listing.living_area else None`
(etl.py lines 430-431 and 493-494): `None` and `0.0` are falsy. -/
def pyOptArea (a : Option ℚ) : Option Int :=
  match a with
  | none => none
  | some q => if q = 0 then none else some (pyTrunc q)

/-- The lookup `select(Property).where(Property.funda_id == ...)` followed by
`.scalar_one_or_none()` (etl.py lines 361-364); with the unique constraint on
`funda_id` at most one row matches. -/
def find_property (db : DBState) (fid : String) : Option PropertyRow :=
  db.props.find? (fun r => r.funda_id == fid)

/-- Column attribute names of the `Property` model (db/models.py lines
14-52), in declaration order.  `bathrooms` is not among them. -/
def property_columns : List String :=
  ["id", "funda_id", "url", "address", "city", "postal_code", "lat", "lon",
   "price", "living_area", "plot_area", "rooms", "bedrooms", "year_built",
   "energy_label", "listing_type", "status", "description", "photos_json",
   "raw_json", "scraped_at", "updated_at"]

/-- Keyword arguments `_insert_property` passes to the `Property(...)`
constructor, in source order (etl.py lines 423-444); line 434 passes
`bathrooms=listing.bathrooms`. -/
def insert_property_kwargs : List String :=
  ["funda_id", "url", "address", "city", "postal_code", "price",
   "living_area", "plot_area", "rooms", "bedrooms", "bathrooms",
   "year_built", "energy_label", "listing_type", "status", "lat", "lon",
   "description", "raw_json", "scraped_at"]

/-- Embeds `ETLPipeline._insert_property` (etl.py lines 416-455).  The
SQLAlchemy declarative constructor accepts only mapped attributes as
keywords and raises `TypeError` on any other; `Property` has no `bathrooms`
column, so the construction on lines 423-444 raises before anything is
added to the session and the insert path can never add a row or the
initial price-history entry.  The `none` branch carries the row the valid
keywords would build. -/
def insert_property (db : DBState) (l : Listing) (now : Int) :
    Except String DBState :=
  match insert_property_kwargs.find? (fun k => !(property_columns.contains k)) with
  | some k =>
      .error ("TypeError: " ++ k ++ " is an invalid keyword argument for Property")
  | none =>
      .ok { props := db.props ++
              [{ id := db.next_id
                 funda_id := l.funda_id
                 url := l.url
                 address := l.address.getD ""
                 city := l.city
                 postal_code := l.postal_code
                 price := some l.price
                 living_area := pyOptArea l.living_area
                 plot_area := pyOptArea l.plot_area
                 rooms := l.rooms
                 bedrooms := l.bedrooms
                 year_built := l.year_built
                 energy_label := l.energy_label
                 listing_type := l.listing_type
                 status := "active"
                 lat := l.lat
                 lon := l.lon
                 description := l.description
                 raw_source := l.source
                 scraped_at := l.scraped_at
                 updated_at := now }]
            history := db.history ++
              [{ property_id := db.next_id, price := l.price, observed_at := l.scraped_at }]
            next_id := db.next_id + 1 }

/-- Keys of the `fields_to_update` dict of `_update_property` (etl.py lines
489-504), in dict order; the loop on lines 506-508 reads
`getattr(existing, field)` for each key in this order. -/
def fields_to_update_keys : List String :=
  ["url", "address", "postal_code", "living_area", "plot_area", "rooms",
   "bedrooms", "bathrooms", "year_built", "energy_label", "lat", "lon",
   "description", "scraped_at"]

/-- One iteration of the `fields_to_update` loop: for a field name that is
an attribute of the row, the `getattr(existing, field) != value` test
paired with the assigned row; `none` models the `AttributeError` that
`getattr` raises for a name the model does not define — `PropertyRow`
mirrors the schema, so `"bathrooms"` falls through to the wildcard arm. -/
def field_step (e : PropertyRow) (l : Listing) : String → Option (Bool × PropertyRow)
  | "url" => some (decide (e.url ≠ l.url), { e with url := l.url })
  | "address" =>
      some (decide (e.address ≠ l.address.getD ""), { e with address := l.address.getD "" })
  | "postal_code" =>
      some (decide (e.postal_code ≠ l.postal_code), { e with postal_code := l.postal_code })
  | "living_area" =>
      some (decide (e.living_area ≠ pyOptArea l.living_area),
        { e with living_area := pyOptArea l.living_area })
  | "plot_area" =>
      some (decide (e.plot_area ≠ pyOptArea l.plot_area),
        { e with plot_area := pyOptArea l.plot_area })
  | "rooms" => some (decide (e.rooms ≠ l.rooms), { e with rooms := l.rooms })
  | "bedrooms" => some (decide (e.bedrooms ≠ l.bedrooms), { e with bedrooms := l.bedrooms })
  | "year_built" =>
      some (decide (e.year_built ≠ l.year_built), { e with year_built := l.year_built })
  | "energy_label" =>
      some (decide (e.energy_label ≠ l.energy_label),
        { e with energy_label := l.energy_label })
  | "lat" => some (decide (e.lat ≠ l.lat), { e with lat := l.lat })
  | "lon" => some (decide (e.lon ≠ l.lon), { e with lon := l.lon })
  | "description" =>
      some (decide (e.description ≠ l.description), { e with description := l.description })
  | "scraped_at" =>
      some (decide (e.scraped_at ≠ l.scraped_at), { e with scraped_at := l.scraped_at })
  | _ => none

/-- The `for field, value in fields_to_update.items()` loop (etl.py lines
506-508): assign each differing field, accumulate whether anything changed,
and abort with `AttributeError` at the first key that is not an attribute
of the row — `"bathrooms"`, the eighth key, in the source; the later keys
(`year_built` … `scraped_at`) are never reached. -/
def run_field_loop (l : Listing) : PropertyRow → List String →
    Except String (PropertyRow × Bool)
  | e, [] => .ok (e, false)
  | e, k :: ks =>
      match field_step e l k with
      | none => .error ("AttributeError: Property object has no attribute " ++ k)
      | some (changed, e2) =>
          match run_field_loop l (if changed then e2 else e) ks with
          | .error m => .error m
          | .ok (e3, rest) => .ok (e3, changed || rest)

/-- Embeds `ETLPipeline._update_property` (etl.py lines 457-521), in source
order: the price comparison first — on a change it adds the history row to
the session and assigns the new price, partial work the caller's rollback
later discards — then the tracked-fields loop, which raises
`AttributeError` at the `bathrooms` key; the reactivation check (lines
511-515) and the `updated_at` bump after the loop are unreachable. -/
def update_property (existing : PropertyRow) (l : Listing) (now : Int) :
    Except String (PropertyRow × Option HistRow × Bool) :=
  let price_changed := decide (existing.price ≠ some l.price)
  let hist : Option HistRow :=
    if price_changed then
      some { property_id := existing.id, price := l.price, observed_at := l.scraped_at }
    else none
  let e1 := if price_changed then { existing with price := some l.price } else existing
  match run_field_loop l e1 fields_to_update_keys with
  | .error m => .error m
  | .ok (e2, any_field) =>
      let status_changed := decide (e2.status ≠ "active")
      let e3 := { e2 with status := "active" }
      let updated := price_changed || any_field || status_changed
      .ok ((if updated then { e3 with updated_at := now } else e3), hist, updated)

/-- Body of the per-listing `try` block of `ETLPipeline._load` (etl.py lines
359-374): look up by `funda_id`, then update the found row (replacing it in
the table and appending its price-history row, if any) or insert a new one.
Both callees raise on the missing `bathrooms` column, so the body
propagates an error for every listing; the success shape
`(state, isNew, isUpdated)` mirrors the counter updates on lines 366-374. -/
def load_listing (db : DBState) (l : Listing) (now : Int) :
    Except String (DBState × Bool × Bool) :=
  match find_property db l.funda_id with
  | some existing =>
      match update_property existing l now with
      | .error m => .error m
      | .ok u =>
          .ok ({ db with
                  props := db.props.map (fun r => if r.id == existing.id then u.1 else r)
                  history := db.history ++ u.2.1.toList },
            false, u.2.2)
  | none =>
      match insert_property db l now with
      | .error m => .error m
      | .ok db2 => .ok (db2, true, false)

/-- Batching of `for i in range(0, len(validated_listings), self.batch_size)`
(etl.py line 355).  The fuel argument makes the recursion structural; with a
positive chunk size, `l.length` fuel always suffices. -/
def chunksGo (n : Nat) : Nat → List α → List (List α)
  | 0, _ => []
  | _ + 1, [] => []
  | fuel + 1, x :: xs => ((x :: xs).take n) :: chunksGo n fuel ((x :: xs).drop n)

/-- Splits a list into consecutive chunks of size `n` (the final chunk may be
shorter). -/
def chunks (n : Nat) (l : List α) : List (List α) := chunksGo n l.length l

/-- The per-listing step of the `_load` loop (etl.py lines 358-390),
accumulating `(session, new_count, updated_count, error_count)`: a raised
exception — here always, on the missing `bathrooms` column — is caught,
`session.rollback()` resets the working state to the last commit
(discarding the partial work of exactly this item), the error is counted,
and the loop continues with the next listing. -/
def load_step (now : Int) (acc : SessionState × Nat × Nat × Nat) (l : Listing) :
    SessionState × Nat × Nat × Nat :=
  match load_listing acc.1.current l now with
  | .error _ =>
      ({ acc.1 with current := acc.1.committed }, acc.2.1, acc.2.2.1, acc.2.2.2 + 1)
  | .ok r =>
      ({ acc.1 with current := r.1 },
        acc.2.1 + (if r.2.1 then 1 else 0),
        acc.2.2.1 + (if r.2.2 then 1 else 0),
        acc.2.2.2)

/-- One batch of `ETLPipeline._load` (etl.py lines 355-402): the per-listing
loop followed by the batch commit, which either persists `current` or
(modelled by `commit_fails`, the caught `SQLAlchemyError` on line 399)
rolls back and adds the batch length to the error count. -/
def load_batch (commit_fails : DBState → Bool) (now : Int)
    (acc : SessionState × Nat × Nat × Nat) (batch : List Listing) :
    SessionState × Nat × Nat × Nat :=
  let r := batch.foldl (load_step now) acc
  if commit_fails r.1.current then
    ({ committed := r.1.committed, current := r.1.committed },
      r.2.1, r.2.2.1, r.2.2.2 + batch.length)
  else
    ({ committed := r.1.current, current := r.1.current }, r.2.1, r.2.2.1, r.2.2.2)

/-- The selection of `ETLPipeline._mark_inactive` (etl.py lines 544-555): a
row is flipped when it belongs to the `(city, listing_type)` scope, is
active, and its external id is absent from the current scrape. -/
def inactive_flip (scraped_ids : List String) (city property_type : String)
    (r : PropertyRow) : Bool :=
  r.city == city && r.listing_type == property_type && r.status == "active" &&
    !(scraped_ids.contains r.funda_id)

/-- Embeds `ETLPipeline._mark_inactive` (etl.py lines 523-565): every row of
the `(city, listing_type)` scope that is active but whose `funda_id` is not
in the current scrape flips to inactive with `updated_at` bumped; the count
of flipped rows is returned. -/
def mark_inactive (db : DBState) (scraped_ids : List String)
    (city property_type : String) (now : Int) : DBState × Nat :=
  ({ db with
      props := db.props.map (fun r =>
        if inactive_flip scraped_ids city property_type r then
          { r with status := "inactive", updated_at := now }
        else r) },
    (db.props.filter (inactive_flip scraped_ids city property_type)).length)

/-- Embeds `ETLPipeline._load` (etl.py lines 319-414): collect the scraped
ids, process the listings in batches (each committing independently), then
mark vanished rows of the scope inactive — `_mark_inactive` commits only
when it flipped at least one row. -/
def load (commit_fails : DBState → Bool) (sess : SessionState)
    (listings : List Listing) (batch_size : Nat) (city property_type : String)
    (now : Int) : SessionState × LoadCounts :=
  let scraped_ids := listings.map (·.funda_id)
  let r := (chunks batch_size listings).foldl (load_batch commit_fails now) (sess, 0, 0, 0)
  let mi := mark_inactive r.1.current scraped_ids city property_type now
  let sess2 : SessionState :=
    if 0 < mi.2 then { committed := mi.1, current := mi.1 }
    else { committed := r.1.committed, current := mi.1 }
  (sess2, { new := r.2.1, updated := r.2.2.1, inactive := mi.2, errors := r.2.2.2 })

/-- Commit oracle for runs where every batch commit succeeds. -/
def noCommitFail : DBState → Bool := fun _ => false

/-! ## Analysis engine (`src/funda_finder/analysis/analyzer.py`)

Python floats are modelled as `ℚ`.  The only float operation with no exact
rational counterpart is `variance ** 0.5`; the group-statistics function
therefore takes a square-root function `sqrtQ` as a parameter standing for
it.  Every claim below is either independent of the standard-deviation value
or quantifies over it. -/

/-- Stable insertion of one element into a list: placed before the first
element `y` with `le x y`, hence after every earlier element tied with it. -/
def insertLe (le : α → α → Bool) (x : α) : List α → List α
  | [] => [x]
  | y :: ys => if le x y then x :: y :: ys else y :: insertLe le x ys

/-- Stable sort modelling Python `sorted` and `list.sort` (Timsort): any two
stable sorts under the same total preorder compute the same list, and
insertion sort is structurally recursive, hence kernel-evaluable. -/
def sortLe (le : α → α → Bool) (l : List α) : List α := l.foldr (insertLe le) []

/-- Python `sorted` on a list of rationals (ascending). -/
def sortQ (l : List ℚ) : List ℚ := sortLe (fun a b => decide (a ≤ b)) l

/-- Statistical summary of a cohort (`ComparableGroup` dataclass,
analyzer.py lines 14-27). -/
structure ComparableGroup where
  city : String
  property_type : String
  rooms : Option Int
  year_range : Option String
  count : Nat
  median_price : ℚ
  mean_price : ℚ
  std_price : ℚ
  median_price_per_sqm : ℚ
  mean_price_per_sqm : ℚ
  std_price_per_sqm : ℚ
deriving DecidableEq

/-- Embeds `PropertyAnalyzer.calculate_group_statistics` (analyzer.py lines
90-147).  The member filter `if p.price and p.living_area and p.living_area
> 0` uses Python truthiness, hence the explicit nonzero tests.  Line 114 of
the source reads the price median from the sorted price-per-sqm array
(`pps_sorted[len(prices_sorted) // 2]`); it is translated exactly as
written. -/
def calculate_group_statistics (sqrtQ : ℚ → ℚ) (properties : List PropertyRow) :
    Option ComparableGroup :=
  match properties with
  | [] => none
  | first_prop :: _ =>
    let pairs := properties.filterMap (fun p =>
      match p.price, p.living_area with
      | some pr, some la =>
          if pr ≠ 0 ∧ la ≠ 0 ∧ 0 < la then some ((pr : ℚ), ((pr : ℚ) / (la : ℚ)))
          else none
      | _, _ => none)
    let prices := pairs.map Prod.fst
    let price_per_sqm_list := pairs.map Prod.snd
    if prices = [] ∨ price_per_sqm_list = [] then none
    else
      let prices_sorted := sortQ prices
      let pps_sorted := sortQ price_per_sqm_list
      let median_price :=
        if prices_sorted = [] then 0 else pps_sorted.getD (prices_sorted.length / 2) 0
      let mean_price := prices.sum / (prices.length : ℚ)
      let variance_price :=
        (prices.map (fun p => (p - mean_price) ^ 2)).sum / (prices.length : ℚ)
      let std_price := sqrtQ variance_price
      let median_pps := pps_sorted.getD (pps_sorted.length / 2) 0
      let mean_pps := price_per_sqm_list.sum / (price_per_sqm_list.length : ℚ)
      let variance_pps :=
        (price_per_sqm_list.map (fun p => (p - mean_pps) ^ 2)).sum /
          (price_per_sqm_list.length : ℚ)
      let std_pps := sqrtQ variance_pps
      let year_range : Option String :=
        match first_prop.year_built with
        | some y =>
          if y ≠ 0 then
            let years := properties.filterMap (fun p =>
              match p.year_built with
              | some z => if z ≠ 0 then some z else none
              | none => none)
            match years with
            | [] => none
            | y0 :: ys =>
                some (toString (ys.foldl min y0) ++ "-" ++ toString (ys.foldl max y0))
          else none
        | none => none
      some
        { city := first_prop.city
          property_type := first_prop.listing_type
          rooms := first_prop.rooms
          year_range := year_range
          count := properties.length
          median_price := median_price
          mean_price := mean_price
          std_price := std_price
          median_price_per_sqm := median_pps
          mean_price_per_sqm := mean_pps
          std_price_per_sqm := std_pps }

/-- Embeds `PropertyAnalyzer.calculate_z_score` (analyzer.py lines 149-158):
exactly `0.0` on a zero standard deviation. -/
def calculate_z_score (value mean std : ℚ) : ℚ :=
  if std = 0 then 0 else (value - mean) / std

/-- Python `sorted` by observation time, modelling the SQL
`order_by(PriceHistory.observed_at)` (stable for equal keys). -/
def sortByObserved (l : List HistRow) : List HistRow :=
  sortLe (fun a b => decide (a.observed_at ≤ b.observed_at)) l

/-- Embeds `PropertyAnalyzer.get_price_drop_info` (analyzer.py lines
160-188): rows of the property observed within the lookback window, ordered
ascending by observation time; fewer than two observations yield `(None, 0)`
as written on line 179. -/
def get_price_drop_info (history : List HistRow) (property_id : Nat) (now : Int)
    (days_lookback : Int := 90) : Option ℚ × Nat :=
  let cutoff := now - days_lookback * 86400
  let hist := sortByObserved (history.filter (fun h =>
    h.property_id == property_id && decide (cutoff ≤ h.observed_at)))
  match hist with
  | [] => (none, 0)
  | [_] => (none, 0)
  | h0 :: h1 :: t =>
    let first_price := h0.price
    let last_price := ((h1 :: t).getLastD h0).price
    if first_price > last_price then
      (some ((((first_price : ℚ) - (last_price : ℚ)) / (first_price : ℚ)) * 100),
        (h0 :: h1 :: t).length)
    else (none, (h0 :: h1 :: t).length)

/-- Embeds `PropertyAnalyzer.get_days_on_market` (analyzer.py lines 190-192):
`(datetime.utcnow() - property.scraped_at).days`, where `timedelta.days`
floors toward minus infinity. -/
def get_days_on_market (p : PropertyRow) (now : Int) : Int :=
  Int.fdiv (now - p.scraped_at) 86400

/-- Python `round(x, 2)`.  Python rounds floats half-to-even; the claims
below only use that rounding maps `[0, 100]` into itself and fixes integer
values, which holds for either tie convention. -/
def round2 (q : ℚ) : ℚ := ((⌊q * 100 + 1 / 2⌋ : Int) : ℚ) / 100

/-- Component 1: price per sqm vs comparables (analyzer.py lines 214-248,
40 percent weight).  The guard `comparable_stats and
comparable_stats.std_price_per_sqm > 0` selects the mapping
`clamp(50 - 25z, 0, 100)`; otherwise the neutral default 50. -/
def pps_subscore (price_per_sqm : ℚ) (comparable_stats : Option ComparableGroup) : ℚ :=
  match comparable_stats with
  | some st =>
    if 0 < st.std_price_per_sqm then
      max 0 (min 100 (50 - calculate_z_score price_per_sqm st.mean_price_per_sqm
        st.std_price_per_sqm * 25))
    else 50
  | none => 50

/-- Component 2: days on market (analyzer.py lines 250-263, 20 percent
weight): the piecewise linear ramp over the three day ranges. -/
def dom_subscore (days : Int) : ℚ :=
  if days ≤ 30 then min 40 (((days : ℚ) / 30) * 40)
  else if days ≤ 60 then 40 + (((days : ℚ) - 30) / 30) * 30
  else 70 + min 30 ((((days : ℚ) - 60) / 60) * 30)

/-- Component 3: price drops (analyzer.py lines 266-286, 40 percent
weight).  The guard `price_drop and price_drop > 0` fires exactly when a
drop d > 0 exists; otherwise the fixed 30. -/
def drop_subscore (price_drop : Option ℚ) : ℚ :=
  match price_drop with
  | some d =>
    if 0 < d then
      if d ≤ 5 then 60 + (d / 5) * 15
      else if d ≤ 10 then 75 + ((d - 5) / 5) * 15
      else 90 + min 10 (((d - 10) / 10) * 10)
    else 30
  | none => 30

/-- Embeds `PropertyAnalyzer.calculate_undervalue_score` (analyzer.py lines
194-298).  The two database reads of the source are passed in explicitly:
`days` is `get_days_on_market(property)` and `(price_drop,
num_observations)` is `get_price_drop_info(property.id)`.  The returned
human-readable explanation string is pure presentation and is not modelled.
The insufficiency guard mirrors Python truthiness: `not property.price`
catches `None` and `0` but not negative prices.  Component values stored in
the components mapping are rounded to two decimals; the source stores the
neutral defaults (`50`, `30.0`) unrounded, which coincides with rounding
them.  The returned composite is unrounded, as on line 298. -/
def calculate_undervalue_score (p : PropertyRow)
    (comparable_stats : Option ComparableGroup) (days : Int)
    (price_drop : Option ℚ) (_num_observations : Nat) :
    ℚ × List (String × ℚ) :=
  let insufficient : Bool :=
    (match p.price with | none => true | some pr => pr == 0) ||
    (match p.living_area with | none => true | some la => la == 0) ||
    (match p.living_area with | none => false | some la => decide (la ≤ 0))
  if insufficient then (0, [])
  else
    match p.price, p.living_area with
    | some pr, some la =>
      let price_per_sqm : ℚ := (pr : ℚ) / (la : ℚ)
      let pps_score := pps_subscore price_per_sqm comparable_stats
      let dom_score := dom_subscore days
      let drop_score := drop_subscore price_drop
      let composite := pps_score * (40 / 100) + dom_score * (20 / 100) +
        drop_score * (40 / 100)
      (composite,
        [("price_per_sqm_score", round2 pps_score),
         ("days_on_market_score", round2 dom_score),
         ("price_drop_score", round2 drop_score),
         ("composite", round2 composite)])
    | _, _ => (0, [])  -- unreachable: the guard catches missing price or area

/-- Per-property score as consumed by the ranking query.  Of the
`PropertyScore` dataclass only `composite_score` (the sort and filter key)
and an identifying field are read by `find_undervalued_properties`; the
remaining fields are presentation. -/
structure ScoredProperty where
  property_id : Nat
  composite_score : ℚ
deriving DecidableEq

/-- Candidate filter of the ranking query (analyzer.py lines 358-369):
matching listing type, price and living area present, positive living area,
active status, and the optional `city.ilike` filter (modelled by
`cityPred`). -/
def candidate_filter (listing_type : String) (cityPred : PropertyRow → Bool)
    (p : PropertyRow) : Bool :=
  p.listing_type == listing_type &&
  !(p.price == none) &&
  (match p.living_area with | some la => decide (0 < la) | none => false) &&
  p.status == "active" &&
  cityPred p

/-- Embeds `PropertyAnalyzer.find_undervalued_properties` (analyzer.py lines
339-392).  The per-property call to `analyze_property` may raise; the
`except` clause skips that property, modelled by the `Option`-valued
`analyze` oracle.  The fetch limit `limit * 2`, the `min_score` filter, the
stable descending sort by composite score (Python `list.sort` is stable;
`sortLe` is a stable sort), and the final truncation follow the source. -/
def find_undervalued_properties (analyze : PropertyRow → Option ScoredProperty)
    (props : List PropertyRow) (cityPred : PropertyRow → Bool)
    (listing_type : String) (min_score : Option ℚ) (limit : Nat) :
    List ScoredProperty :=
  let properties := (props.filter (candidate_filter listing_type cityPred)).take (limit * 2)
  let scored_properties := properties.foldl (fun acc prop =>
    match analyze prop with
    | none => acc
    | some score_obj =>
      match min_score with
      | none => acc ++ [score_obj]
      | some m => if m ≤ score_obj.composite_score then acc ++ [score_obj] else acc) []
  let sorted := sortLe
    (fun a b => decide (b.composite_score ≤ a.composite_score)) scored_properties
  sorted.take limit

/-! ## Batch validation (`src/funda_finder/validation/converters.py`) -/

/-- Embeds `raw_to_validated_batch` (converters.py lines 77-111) for an
arbitrary per-item converter `raw_to_validated : α → Option β` (the source
converter returns the validated model or `None`).  The summary log line 108
evaluates `len(failed) / len(raw_listings) * 100`, which raises
`ZeroDivisionError` when the input list is empty; the embedding surfaces
that as an `Except.error`. -/
def raw_to_validated_batch {α β : Type} (raw_to_validated : α → Option β)
    (raw_listings : List α) : Except String (List β × List α) :=
  let step := fun (acc : List β × List α) (raw : α) =>
    match raw_to_validated raw with
    | some result => (acc.1 ++ [result], acc.2)
    | none => (acc.1, acc.2 ++ [raw])
  let (validated, failed) := raw_listings.foldl step ([], [])
  if raw_listings.length = 0 then Except.error "ZeroDivisionError: division by zero"
  else Except.ok (validated, failed)

/-! ## Concrete scenario data -/

/-- Empty database with autoincrement counter 1. -/
def emptyDB : DBState := { props := [], history := [], next_id := 1 }

/-- Fresh session over the empty database. -/
def emptySession : SessionState := { committed := emptyDB, current := emptyDB }

/-- Baseline validated listing for concrete scenarios. -/
def baseListing : Listing :=
  { funda_id := "a", url := "https://www.funda.nl/koop/amsterdam/huis-a",
    city := "Amsterdam", price := 400000, listing_type := "buy",
    address := none, postal_code := none, lat := none, lon := none,
    living_area := none, plot_area := none, rooms := none, bedrooms := none,
    bathrooms := none, year_built := none, energy_label := none,
    description := none, source := none, scraped_at := 0 }

/-- Second listing with a distinct external id. -/
def listingB : Listing := { baseListing with
  funda_id := "b"
  url := "https://www.funda.nl/koop/amsterdam/huis-b" }

/-- Listing for the same property seen again 40 days later at a lower
price. -/
def laterListing : Listing := { baseListing with
  price := 380000
  scraped_at := 40 * 86400 }

/-- Row as created by `ScrapeOrchestrator._process_listing`
(orchestrator.py lines 116-147) at the first sighting of property `a` at
time 0 with price 400000: the orchestrator constructs `Property` without a
`bathrooms` keyword — unlike the ETL insert path, row creation succeeds
there — and stamps `scraped_at` with the first-sighting scrape time; its
update path (lines 152-171) never assigns `scraped_at`. -/
def firstSeenRowA : PropertyRow :=
  { id := 1, funda_id := "a", url := "https://www.funda.nl/koop/amsterdam/huis-a",
    address := "", city := "Amsterdam", postal_code := none, price := some 400000,
    living_area := none, plot_area := none, rooms := none, bedrooms := none,
    year_built := none, energy_label := none, listing_type := "buy",
    status := "active", lat := none, lon := none, description := none,
    raw_source := none, scraped_at := 0, updated_at := 0 }

/-- Store holding property `a` as first seen at time 0, with its initial
price-history observation. -/
def dbFirstSeenA : DBState :=
  { props := [firstSeenRowA],
    history := [{ property_id := 1, price := 400000, observed_at := 0 }],
    next_id := 2 }

/-- Property `a` marked inactive by an earlier run. -/
def inactiveRowA : PropertyRow := { firstSeenRowA with status := "inactive" }

/-- Store holding only the inactive property `a`. -/
def dbInactiveA : DBState :=
  { props := [inactiveRowA], history := [], next_id := 2 }

/-- Price history with two observations five days apart, dropping from
400000 to 380000. -/
def twoObsHistory : List HistRow :=
  [{ property_id := 1, price := 400000, observed_at := 0 },
   { property_id := 1, price := 380000, observed_at := 5 * 86400 }]

/-- Persisted row used by the analysis scenarios: price 300000, living area
100, hence price per square metre 3000. -/
def samplePropRow : PropertyRow :=
  { id := 1, funda_id := "a", url := "https://www.funda.nl/koop/amsterdam/huis-a",
    address := "", city := "Amsterdam", postal_code := none, price := some 300000,
    living_area := some 100, plot_area := none, rooms := none, bedrooms := none,
    year_built := none, energy_label := none,
    listing_type := "buy", status := "active", lat := none, lon := none,
    description := none, raw_source := none, scraped_at := 0, updated_at := 0 }

/-- Row with a negative stored price (and positive living area). -/
def negativePriceProp : PropertyRow := { samplePropRow with price := some (-100000) }

/-- Price history with a single observation inside any 90-day window ending
at time 0. -/
def oneObsHistory : List HistRow := [{ property_id := 1, price := 350000, observed_at := 0 }]

/-- Four ranking candidates with distinct primary keys. -/
def rankProps : List PropertyRow :=
  [samplePropRow,
   { samplePropRow with id := 2, funda_id := "b" },
   { samplePropRow with id := 3, funda_id := "c" },
   { samplePropRow with id := 4, funda_id := "d" }]

/-- Scoring oracle realising the composite scores 90, 60, 90, 30 of the
specification example, keyed by primary key. -/
def rankAnalyze : PropertyRow → Option ScoredProperty := fun p =>
  if p.id = 1 then some { property_id := 1, composite_score := 90 }
  else if p.id = 2 then some { property_id := 2, composite_score := 60 }
  else if p.id = 3 then some { property_id := 3, composite_score := 90 }
  else if p.id = 4 then some { property_id := 4, composite_score := 30 }
  else none

/-- Active buy candidate whose stored price is 0: the nullable `price`
column enforces no positivity. -/
def zeroPriceProp : PropertyRow :=
  { samplePropRow with id := 9, funda_id := "z", price := some 0 }

/-- Scoring oracle for the zero-price candidate. -/
def zeroPriceAnalyze : PropertyRow → Option ScoredProperty := fun p =>
  if p.id = 9 then some { property_id := 9, composite_score := 50 } else none

/-! ## Theorems -/

/-! ### The collapsed insert and update paths -/

/-- Every call of `_insert_property` raises: `bathrooms` is among the
constructor keywords (etl.py line 434) but not among the model columns. -/
theorem insert_property_error (db : DBState) (l : Listing) (now : Int) :
    insert_property db l now =
      Except.error "TypeError: bathrooms is an invalid keyword argument for Property" :=
  rfl

/-- Every call of `_update_property` raises: the field loop reads
`getattr(existing, "bathrooms")` on a row with no such attribute. -/
theorem update_property_error (e : PropertyRow) (l : Listing) (now : Int) :
    update_property e l now =
      Except.error "AttributeError: Property object has no attribute bathrooms" :=
  rfl

/-- Each listing of the load loop errors out: the session rolls back to the
last commit and the error count increments by one. -/
theorem load_step_eq (now : Int) (acc : SessionState × Nat × Nat × Nat) (l : Listing) :
    load_step now acc l =
      ({ acc.1 with current := acc.1.committed }, acc.2.1, acc.2.2.1, acc.2.2.2 + 1) := by
  cases h : find_property acc.1.current l.funda_id with
  | none => simp [load_step, load_listing, h, insert_property_error]
  | some e => simp [load_step, load_listing, h, update_property_error]

/-- A nonempty batch leaves the working state at the last commit and counts
one error per listing. -/
theorem load_step_fold (now : Int) :
    ∀ (t : List Listing) (l : Listing) (sess : SessionState) (n u e : Nat),
    (l :: t).foldl (load_step now) (sess, n, u, e) =
      (⟨sess.committed, sess.committed⟩, n, u, e + (l :: t).length) := by
  intro t
  induction t with
  | nil =>
      intro l sess n u e
      rw [List.foldl_cons, List.foldl_nil, load_step_eq]
      rfl
  | cons l2 t ih =>
      intro l sess n u e
      rw [List.foldl_cons, load_step_eq, ih]
      show ((⟨sess.committed, sess.committed⟩ : SessionState), n, u,
          e + 1 + (l2 :: t).length) =
        ((⟨sess.committed, sess.committed⟩ : SessionState), n, u,
          e + (l :: l2 :: t).length)
      have hlen : e + 1 + (l2 :: t).length = e + (l :: l2 :: t).length := by
        simp only [List.length_cons]
        omega
      rw [hlen]

/-- One nonempty batch including its (vacuous) commit. -/
theorem load_batch_cons (now : Int) (l : Listing) (t : List Listing)
    (sess : SessionState) (n u e : Nat) :
    load_batch noCommitFail now (sess, n, u, e) (l :: t) =
      (⟨sess.committed, sess.committed⟩, n, u, e + (l :: t).length) := by
  simp only [load_batch, noCommitFail, Bool.false_eq_true, if_false, load_step_fold]

/-- Folding batches from a committed-equals-current session: the state is
invariant and the error count grows by the total number of listings. -/
theorem load_batch_fold_cc (now : Int) :
    ∀ (cs : List (List Listing)) (c : DBState) (n u e : Nat),
    cs.foldl (load_batch noCommitFail now) (⟨c, c⟩, n, u, e) =
      (⟨c, c⟩, n, u, e + cs.flatten.length) := by
  intro cs
  induction cs with
  | nil => intro c n u e; simp
  | cons b cs ih =>
      intro c n u e
      rw [List.foldl_cons]
      cases b with
      | nil =>
          have hb : load_batch noCommitFail now ((⟨c, c⟩ : SessionState), n, u, e) [] =
              ((⟨c, c⟩ : SessionState), n, u, e) := by
            simp [load_batch, noCommitFail]
          rw [hb, ih]
          simp
      | cons l t =>
          rw [load_batch_cons, ih]
          show ((⟨c, c⟩ : SessionState), n, u,
              e + (l :: t).length + cs.flatten.length) =
            ((⟨c, c⟩ : SessionState), n, u, e + ((l :: t) :: cs).flatten.length)
          have hlen : e + (l :: t).length + cs.flatten.length =
              e + ((l :: t) :: cs).flatten.length := by
            simp only [List.flatten_cons, List.length_append]
            omega
          rw [hlen]

/-- With enough fuel, the batching splits the list into chunks that
concatenate back to it. -/
theorem chunksGo_flatten (n : Nat) (hn : 0 < n) :
    ∀ (fuel : Nat) (l : List Listing), l.length ≤ fuel →
    (chunksGo n fuel l).flatten = l := by
  intro fuel
  induction fuel with
  | zero =>
      intro l hl
      obtain rfl : l = [] := List.length_eq_zero.mp (Nat.le_zero.mp hl)
      simp [chunksGo]
  | succ f ih =>
      intro l hl
      cases l with
      | nil => simp [chunksGo]
      | cons x xs =>
          rw [chunksGo, List.flatten_cons, ih, List.take_append_drop]
          rw [List.length_drop]
          simp only [List.length_cons] at hl ⊢
          omega

/-- The chunk list of a nonempty input starts with its first chunk. -/
theorem chunks_cons (n : Nat) (x : Listing) (xs : List Listing) :
    chunks n (x :: xs) =
      ((x :: xs).take n) :: chunksGo n xs.length ((x :: xs).drop n) := rfl

/-- A zero flip count means `_mark_inactive` changed nothing. -/
theorem mark_inactive_count_zero (db : DBState) (scraped : List String)
    (city pt : String) (now : Int)
    (h : (mark_inactive db scraped city pt now).2 = 0) :
    (mark_inactive db scraped city pt now).1 = db := by
  have hfil : db.props.filter (inactive_flip scraped city pt) = [] :=
    List.length_eq_zero.mp h
  have hall : ∀ r ∈ db.props, inactive_flip scraped city pt r = false := by
    intro r hr
    by_contra hc
    have hmem : r ∈ db.props.filter (inactive_flip scraped city pt) :=
      List.mem_filter.mpr ⟨hr, by simpa using hc⟩
    rw [hfil] at hmem
    simp at hmem
  have hmap : db.props.map (fun r =>
      if inactive_flip scraped city pt r then
        { r with status := "inactive", updated_at := now } else r) = db.props := by
    have h1 : db.props.map (fun r =>
        if inactive_flip scraped city pt r then
          { r with status := "inactive", updated_at := now } else r) =
        db.props.map (fun r => r) :=
      List.map_congr_left (fun r hr => by rw [hall r hr]; simp)
    simpa using h1
  show ({ db with props := _ } : DBState) = db
  rw [hmap]

/-- Applying `_mark_inactive` twice with the same scrape scope flips nothing
the second time. -/
theorem mark_inactive_idem (db : DBState) (scraped : List String)
    (city pt : String) (now now2 : Int) :
    mark_inactive (mark_inactive db scraped city pt now).1 scraped city pt now2 =
      ((mark_inactive db scraped city pt now).1, 0) := by
  have hall : ∀ r ∈ (mark_inactive db scraped city pt now).1.props,
      inactive_flip scraped city pt r = false := by
    intro r hr
    simp only [mark_inactive] at hr
    obtain ⟨r0, _, rfl⟩ := List.mem_map.mp hr
    by_cases h : inactive_flip scraped city pt r0 = true
    · rw [if_pos h]
      simp [inactive_flip]
    · rw [if_neg (by simpa using h)]
      simpa using h
  have hcount : (mark_inactive (mark_inactive db scraped city pt now).1
      scraped city pt now2).2 = 0 := by
    show (List.filter _ _).length = 0
    rw [List.filter_eq_nil_iff.mpr (fun a ha => by simp [hall a ha])]
    rfl
  exact Prod.ext_iff.mpr
    ⟨mark_inactive_count_zero _ _ _ _ _ hcount, hcount⟩

/-- Characterisation of `_load` on a nonempty input: every listing fails on
the missing `bathrooms` column and is rolled back, so the run returns zero
new and updated counts, one error per listing, and a session committed at
the `_mark_inactive` image of the previously committed store. -/
theorem load_char (sess : SessionState) (c0 : DBState) (hc : sess.committed = c0)
    (x : Listing) (xs : List Listing) (bs : Nat) (city pt : String) (now : Int)
    (hbs : 0 < bs) :
    load noCommitFail sess (x :: xs) bs city pt now =
      (⟨(mark_inactive c0 ((x :: xs).map (fun l => l.funda_id)) city pt now).1,
        (mark_inactive c0 ((x :: xs).map (fun l => l.funda_id)) city pt now).1⟩,
        { new := 0, updated := 0,
          inactive := (mark_inactive c0 ((x :: xs).map (fun l => l.funda_id)) city pt now).2,
          errors := (x :: xs).length }) := by
  subst hc
  obtain ⟨bs2, rfl⟩ : ∃ bs2, bs = bs2 + 1 := ⟨bs - 1, by omega⟩
  have hflat : (chunksGo (bs2 + 1) xs.length (xs.drop bs2)).flatten = xs.drop bs2 :=
    chunksGo_flatten (bs2 + 1) (by omega) xs.length (xs.drop bs2)
      (by rw [List.length_drop]; omega)
  simp only [load, chunks_cons, List.take_succ_cons, List.drop_succ_cons,
    List.foldl_cons, load_batch_cons, load_batch_fold_cc, hflat]
  have herr : 0 + (x :: xs.take bs2).length + (xs.drop bs2).length =
      (x :: xs).length := by
    simp [List.length_take, List.length_drop]
    omega
  rw [herr]
  by_cases hmi : 0 < (mark_inactive sess.committed
      ((x :: xs).map (fun l => l.funda_id)) city pt now).2
  · rw [if_pos hmi]
  · rw [if_neg hmi, mark_inactive_count_zero _ _ _ _ _ (Nat.eq_zero_of_not_pos hmi)]

/-- On a fresh session the run leaves `current` at the `_mark_inactive`
image of the starting store and inserts and updates nothing. -/
theorem load_fresh (db : DBState) (L : List Listing) (bs : Nat)
    (city pt : String) (now : Int) (hbs : 0 < bs) :
    (load noCommitFail ⟨db, db⟩ L bs city pt now).1.current =
      (mark_inactive db (L.map (fun l => l.funda_id)) city pt now).1
    ∧ (load noCommitFail ⟨db, db⟩ L bs city pt now).2.new = 0
    ∧ (load noCommitFail ⟨db, db⟩ L bs city pt now).2.updated = 0 := by
  cases L with
  | nil =>
      simp only [load, chunks, List.length_nil, chunksGo, List.foldl_nil, List.map_nil]
      refine ⟨?_, trivial, trivial⟩
      split <;> rfl
  | cons x xs =>
      rw [load_char ⟨db, db⟩ db rfl x xs bs city pt now hbs]
      exact ⟨rfl, rfl, rfl⟩

/-! ### C1: price-history appends -/

/-- C1: the append-iff of the claim diverges from the code.
`_insert_property` passes `bathrooms=` to a model with no such column, so
the first insert of a listing raises `TypeError` instead of appending the
initial price-history row (empty store: history stays empty, one error);
and a price-changing re-scrape raises `AttributeError` inside
`_update_property`, its tentative history append rolled back (store with
property `a` at 400000, re-scraped at 380000: history unchanged).  The
claim requires exactly one appended row in both runs; the program appends
zero. -/
theorem price_history_never_appended :
    insert_property emptyDB baseListing 0 =
      Except.error "TypeError: bathrooms is an invalid keyword argument for Property"
    ∧ (load noCommitFail emptySession [baseListing] 100 "Amsterdam" "buy"
        0).1.current.history = []
    ∧ (load noCommitFail emptySession [baseListing] 100 "Amsterdam" "buy" 0).2 =
        { new := 0, updated := 0, inactive := 0, errors := 1 }
    ∧ update_property firstSeenRowA laterListing (40 * 86400) =
        Except.error "AttributeError: Property object has no attribute bathrooms"
    ∧ (load noCommitFail ⟨dbFirstSeenA, dbFirstSeenA⟩ [laterListing] 100
        "Amsterdam" "buy" (40 * 86400)).1.current.history = dbFirstSeenA.history
    ∧ firstSeenRowA.price = some 400000
    ∧ laterListing.price = 380000
    ∧ (0 : Nat) ≠ 1 :=
  ⟨rfl, by decide, by decide, rfl, by decide, rfl, rfl, by decide⟩

/-! ### C2: failure handling in the load loop -/

/-- C2: a failure while loading one listing — in the source every listing
fails, on the missing `bathrooms` column — is caught, `session.rollback()`
resets the session to the last commit, discarding exactly that item's
partial work (no other item can have pending work, so previously done work
survives untouched until the intended `_mark_inactive` pass), the error is
counted, and the loop continues: the run completes with one error per
listing and no failure ever aborts it. -/
theorem load_failure_counted_and_continues (sess : SessionState) (x : Listing)
    (xs : List Listing) (bs : Nat) (city pt : String) (now : Int) (hbs : 0 < bs) :
    load noCommitFail sess (x :: xs) bs city pt now =
      (⟨(mark_inactive sess.committed ((x :: xs).map (fun l => l.funda_id)) city pt now).1,
        (mark_inactive sess.committed ((x :: xs).map (fun l => l.funda_id)) city pt now).1⟩,
        { new := 0, updated := 0,
          inactive := (mark_inactive sess.committed
            ((x :: xs).map (fun l => l.funda_id)) city pt now).2,
          errors := (x :: xs).length }) :=
  load_char sess sess.committed rfl x xs bs city pt now hbs

/-- Witness for `load_failure_counted_and_continues`: two listings into the
empty store both fail and are both counted; the run completes. -/
theorem load_failure_counted_witness :
    (load noCommitFail emptySession [baseListing, listingB] 100 "Amsterdam"
        "buy" 0).2.errors = 2 := by
  rw [load_failure_counted_and_continues emptySession baseListing [listingB]
    100 "Amsterdam" "buy" 0 (by decide)]
  rfl

/-! ### C3: status lifecycle -/

/-- C3: the reactivation half of the lifecycle is dead code.  An inactive
property whose external id reappears in a scrape is looked up and handed to
`_update_property`, which raises `AttributeError` at the `bathrooms` key
before the reactivation check (etl.py lines 511-515) and is rolled back: the
row stays `"inactive"`, no update is counted, one error is; the claim
requires the row to transition back to `"active"` with an update counted. -/
theorem reactivation_never_happens :
    (match find_property (load noCommitFail ⟨dbInactiveA, dbInactiveA⟩ [baseListing]
        100 "Amsterdam" "buy" 86400).1.current "a" with
      | some r => r.status
      | none => "missing") = "inactive"
    ∧ (load noCommitFail ⟨dbInactiveA, dbInactiveA⟩ [baseListing] 100 "Amsterdam"
        "buy" 86400).2.updated = 0
    ∧ (load noCommitFail ⟨dbInactiveA, dbInactiveA⟩ [baseListing] 100 "Amsterdam"
        "buy" 86400).2.errors = 1
    ∧ update_property inactiveRowA baseListing 86400 =
        Except.error "AttributeError: Property object has no attribute bathrooms"
    ∧ "inactive" ≠ "active" :=
  ⟨by decide, by decide, by decide, rfl, by decide⟩

/-! ### C4: idempotence of re-reconciliation -/

/-- C4: re-reconciliation is idempotent — trivially so in the source, where
every per-listing write attempt raises on the missing `bathrooms` column
and is rolled back: the second run with the exact same listings records
zero updates and zero new rows, flips nothing to inactive, appends no
price-history rows, leaves the session (and so every stored property
field) unchanged, and counts one error per listing, exactly like the
first. -/
theorem load_idempotent (sess : SessionState) (L : List Listing) (bs : Nat)
    (city pt : String) (now now2 : Int) (hbs : 0 < bs) :
    load noCommitFail (load noCommitFail sess L bs city pt now).1 L bs city pt now2 =
      ((load noCommitFail sess L bs city pt now).1,
        { new := 0, updated := 0, inactive := 0, errors := L.length }) := by
  cases L with
  | nil =>
      by_cases h1 : 0 < (mark_inactive sess.current [] city pt now).2
      · simp only [load, chunks, List.length_nil, chunksGo, List.foldl_nil,
          List.map_nil, h1, if_true, mark_inactive_idem]
        simp
      · have h0 : (mark_inactive sess.current [] city pt now).2 = 0 :=
          Nat.eq_zero_of_not_pos h1
        have h02 : (mark_inactive sess.current [] city pt now2).2 = 0 := h0
        simp only [load, chunks, List.length_nil, chunksGo, List.foldl_nil,
          List.map_nil, h1, if_false,
          mark_inactive_count_zero _ _ _ _ _ h0,
          mark_inactive_count_zero _ _ _ _ _ h02, h0, h02]
        simp
        refine ⟨?_, h02⟩
        rw [if_neg (by rw [h02]; exact lt_irrefl 0),
          mark_inactive_count_zero _ _ _ _ _ h02]
  | cons x xs =>
      rw [load_char sess sess.committed rfl x xs bs city pt now hbs]
      show load noCommitFail
          ⟨(mark_inactive sess.committed ((x :: xs).map (fun l => l.funda_id)) city pt now).1,
            (mark_inactive sess.committed ((x :: xs).map (fun l => l.funda_id)) city pt now).1⟩
          (x :: xs) bs city pt now2 =
        (⟨(mark_inactive sess.committed ((x :: xs).map (fun l => l.funda_id)) city pt now).1,
          (mark_inactive sess.committed ((x :: xs).map (fun l => l.funda_id)) city pt now).1⟩,
          { new := 0, updated := 0, inactive := 0, errors := (x :: xs).length })
      rw [load_char
        ⟨(mark_inactive sess.committed ((x :: xs).map (fun l => l.funda_id)) city pt now).1,
          (mark_inactive sess.committed ((x :: xs).map (fun l => l.funda_id)) city pt now).1⟩
        (mark_inactive sess.committed ((x :: xs).map (fun l => l.funda_id)) city pt now).1
        rfl x xs bs city pt now2 hbs]
      simp only [mark_inactive_idem]

/-- Witness for `load_idempotent`: two listings into the empty store; the
second run records zero updates. -/
theorem load_idempotent_witness :
    (load noCommitFail (load noCommitFail emptySession [baseListing, listingB] 100
        "Amsterdam" "buy" 0).1 [baseListing, listingB] 100 "Amsterdam" "buy"
        86400).2.updated = 0 := by
  rw [load_idempotent emptySession [baseListing, listingB] 100 "Amsterdam" "buy"
    0 86400 (by decide)]

/-! ### C5: group statistics -/

/-- C5: on the one-member cohort `[samplePropRow]` (price 300000, living
area 100), the group statistics report `median_price = 3000` — the middle
element of the sorted price-per-sqm array — although the middle element of
the ascending-sorted price array is 300000.  The price median is read from
the wrong array (analyzer.py line 114). -/
theorem group_statistics_median_price_wrong_array :
    ((calculate_group_statistics (fun _ => 0) [samplePropRow]).map
        (fun g => g.median_price)) = some 3000
    ∧ (sortQ [(300000 : ℚ)]).getD (1 / 2) 0 = 300000
    ∧ (3000 : ℚ) ≠ 300000 := by
  refine ⟨?_, by norm_num [sortQ, sortLe, insertLe], by norm_num⟩
  simp +decide [calculate_group_statistics, samplePropRow, sortQ, sortLe, insertLe]
  norm_num

/-! ### C6: days on market -/

/-- C6: days on market is the floored whole days between the stored
`scraped_at` and the evaluation time, and `scraped_at` is the first-seen
stamp: rows are created only by the orchestrator, which writes `scraped_at`
once at the first sighting and never on update, and the ETL load stage —
whose `_update_property` raises before its `scraped_at` assignment and is
rolled back — preserves every row's `scraped_at` (and id, external id and
price) while inserting and updating nothing. -/
theorem days_on_market_from_first_seen (db : DBState) (L : List Listing)
    (bs : Nat) (city pt : String) (now tEval : Int) (hbs : 0 < bs) :
    (∀ p : PropertyRow, get_days_on_market p tEval =
        Int.fdiv (tEval - p.scraped_at) 86400)
    ∧ (∀ r ∈ (load noCommitFail ⟨db, db⟩ L bs city pt now).1.current.props,
        ∃ r0 ∈ db.props, r0.id = r.id ∧ r0.scraped_at = r.scraped_at ∧
          r0.funda_id = r.funda_id ∧ r0.price = r.price)
    ∧ (load noCommitFail ⟨db, db⟩ L bs city pt now).2.new = 0
    ∧ (load noCommitFail ⟨db, db⟩ L bs city pt now).2.updated = 0 := by
  obtain ⟨hcur, hnew, hupd⟩ := load_fresh db L bs city pt now hbs
  refine ⟨fun p => rfl, ?_, hnew, hupd⟩
  intro r hr
  rw [hcur] at hr
  simp only [mark_inactive] at hr
  obtain ⟨r0, hr0, rfl⟩ := List.mem_map.mp hr
  refine ⟨r0, hr0, ?_, ?_, ?_, ?_⟩ <;> (split <;> rfl)

/-- Witness for `days_on_market_from_first_seen`: property `a`, first seen
at time 0, evaluated 40 days later after a re-scrape whose update failed,
reports 40 whole days on market. -/
theorem days_on_market_from_first_seen_witness :
    get_days_on_market firstSeenRowA (40 * 86400) =
      Int.fdiv (40 * 86400 - firstSeenRowA.scraped_at) 86400
    ∧ Int.fdiv (40 * 86400 - firstSeenRowA.scraped_at) 86400 = 40 :=
  ⟨(days_on_market_from_first_seen dbFirstSeenA [laterListing] 100 "Amsterdam"
      "buy" (40 * 86400) (40 * 86400) (by decide)).1 firstSeenRowA, by decide⟩

/-! ### Properties of the stable sort -/

/-- Inserting permutes to a cons. -/
theorem insertLe_perm (le : α → α → Bool) (x : α) (l : List α) :
    (insertLe le x l).Perm (x :: l) := by
  induction l with
  | nil => exact List.Perm.refl _
  | cons y ys ih =>
      rw [insertLe]
      by_cases h : le x y = true
      · rw [if_pos h]
      · rw [if_neg h]
        exact (ih.cons y).trans (List.Perm.swap x y ys)

/-- The stable sort is a permutation of its input. -/
theorem sortLe_perm (le : α → α → Bool) (l : List α) : (sortLe le l).Perm l := by
  induction l with
  | nil => exact List.Perm.refl _
  | cons x xs ih =>
      exact (insertLe_perm le x (sortLe le xs)).trans (ih.cons x)

/-- Membership is preserved by the stable sort. -/
theorem mem_sortLe (le : α → α → Bool) (l : List α) (a : α) :
    a ∈ sortLe le l ↔ a ∈ l :=
  (sortLe_perm le l).mem_iff

/-- The stable sort preserves length. -/
theorem length_sortLe (le : α → α → Bool) (l : List α) :
    (sortLe le l).length = l.length :=
  (sortLe_perm le l).length_eq

/-- Inserting into a pairwise-ordered list keeps it pairwise ordered, for a
total transitive comparison. -/
theorem pairwise_insertLe (le : α → α → Bool)
    (total : ∀ a b, le a b = false → le b a = true)
    (htrans : ∀ a b c, le a b = true → le b c = true → le a c = true)
    (x : α) (l : List α) (hl : l.Pairwise (fun a b => le a b = true)) :
    (insertLe le x l).Pairwise (fun a b => le a b = true) := by
  induction l with
  | nil => simp [insertLe]
  | cons y ys ih =>
      rcases hl with _ | ⟨hy, hys⟩
      rw [insertLe]
      by_cases h : le x y = true
      · rw [if_pos h]
        refine List.Pairwise.cons ?_ (List.Pairwise.cons hy hys)
        intro z hz
        rcases List.mem_cons.mp hz with rfl | hz2
        · exact h
        · exact htrans x y z h (hy z hz2)
      · rw [if_neg h]
        refine List.Pairwise.cons ?_ (ih hys)
        intro z hz
        rcases List.mem_cons.mp ((insertLe_perm le x ys).mem_iff.mp hz) with rfl | hz2
        · exact total _ _ (by simpa using h)
        · exact hy z hz2

/-- The stable sort orders its output, for a total transitive comparison. -/
theorem pairwise_sortLe (le : α → α → Bool)
    (total : ∀ a b, le a b = false → le b a = true)
    (htrans : ∀ a b c, le a b = true → le b c = true → le a c = true)
    (l : List α) :
    (sortLe le l).Pairwise (fun a b => le a b = true) := by
  induction l with
  | nil => simp [sortLe]
  | cons x xs ih => exact pairwise_insertLe le total htrans x (sortLe le xs) ih

/-- Stability of insertion, phrased through filters: elements selected by a
predicate that only holds on keys tied with `x` keep their relative order. -/
theorem filter_insertLe (le : α → α → Bool) (p : α → Bool) (x : α) (l : List α)
    (hskip : ∀ y, p x = true → le x y = false → p y = false) :
    (insertLe le x l).filter p =
      if p x then x :: l.filter p else l.filter p := by
  induction l with
  | nil => simp [insertLe, List.filter_cons]
  | cons y ys ih =>
      rw [insertLe]
      by_cases h : le x y = true
      · rw [if_pos h]
        simp [List.filter_cons]
      · rw [if_neg h]
        by_cases hx : p x = true
        · have hy : p y = false := hskip y hx (by simpa using h)
          simp [List.filter_cons, hx, hy, ih]
        · have hx2 : p x = false := by simpa using hx
          simp [List.filter_cons, hx2, ih]

/-- Stability of the sort, phrased through filters: for a predicate that
only selects mutually tied elements, filtering the sorted list equals
filtering the input — tied elements keep their input order. -/
theorem filter_sortLe (le : α → α → Bool) (p : α → Bool) (l : List α)
    (hskip : ∀ x y, p x = true → le x y = false → p y = false) :
    (sortLe le l).filter p = l.filter p := by
  induction l with
  | nil => rfl
  | cons x xs ih =>
      show (insertLe le x (sortLe le xs)).filter p = _
      rw [filter_insertLe le p x (sortLe le xs) (hskip x)]
      by_cases hx : p x = true
      · rw [if_pos hx, ih, List.filter_cons_of_pos hx]
      · rw [if_neg hx, ih, List.filter_cons_of_neg (by simpa using hx)]

/-! ### C7: price-drop lookback -/

/-- C7 counterexample: with exactly one price observation inside the window
the query returns `(none, 0)`: the reported observation count is 0, not the
actual count 1, refuting that the observation count is reported in every
case. -/
theorem price_drop_single_observation_count_zero :
    get_price_drop_info oneObsHistory 1 0 90 = (none, 0)
    ∧ (oneObsHistory.filter (fun h =>
        h.property_id == 1 && decide ((0 : Int) - 90 * 86400 ≤ h.observed_at))).length = 1
    ∧ (0 : Nat) ≠ 1 := by
  decide

/-- C7 (amended): the price-drop query over the window, ordered ascending by
observation time, returns `(none, 0)` when fewer than two observations exist
— the actual observation count is echoed only from two observations up —
and otherwise reports the count together with the strictly positive drop
percentage `(first - last) / first * 100` exactly when the first price in
the window exceeds the last. -/
theorem price_drop_info_spec (history : List HistRow) (pid : Nat)
    (now lookback : Int) (hpos : ∀ h ∈ history, 0 < h.price)
    (obs : List HistRow)
    (hobs : obs = sortByObserved (history.filter (fun h =>
      h.property_id == pid && decide (now - lookback * 86400 ≤ h.observed_at)))) :
    (obs.length < 2 → get_price_drop_info history pid now lookback = (none, 0))
    ∧ (2 ≤ obs.length →
        (get_price_drop_info history pid now lookback).2 = obs.length)
    ∧ (∀ hf hl, obs.head? = some hf → obs.getLast? = some hl →
        (hl.price < hf.price →
          (get_price_drop_info history pid now lookback).1 =
            some ((((hf.price : ℚ) - (hl.price : ℚ)) / (hf.price : ℚ)) * 100))
        ∧ (hf.price ≤ hl.price →
          (get_price_drop_info history pid now lookback).1 = none))
    ∧ (∀ d, (get_price_drop_info history pid now lookback).1 = some d → 0 < d) := by
  rcases obs with _ | ⟨b0, tail⟩
  · have hr : get_price_drop_info history pid now lookback = (none, 0) := by
      simp only [get_price_drop_info, ← hobs]
    refine ⟨fun _ => hr, fun h2 => absurd h2 (by simp), ?_, ?_⟩
    · intro hf hl hhf _
      simp at hhf
    · intro d hd
      rw [hr] at hd
      simp at hd
  · rcases tail with _ | ⟨b1, bt⟩
    · have hr : get_price_drop_info history pid now lookback = (none, 0) := by
        simp only [get_price_drop_info, ← hobs]
      refine ⟨fun _ => hr, fun h2 => absurd h2 (by simp), ?_, ?_⟩
      · intro hf hl hhf hhl
        obtain rfl : hf = b0 := by simpa using hhf.symm
        obtain rfl : hl = hf := by simpa using hhl.symm
        refine ⟨fun hlt => absurd hlt (by omega), fun _ => by rw [hr]⟩
      · intro d hd
        rw [hr] at hd
        simp at hd
    · have hif : get_price_drop_info history pid now lookback =
          if b0.price > ((b1 :: bt).getLastD b0).price then
            (some ((((b0.price : ℚ) - (((b1 :: bt).getLastD b0).price : ℚ)) /
              (b0.price : ℚ)) * 100), (b0 :: b1 :: bt).length)
          else (none, (b0 :: b1 :: bt).length) := by
        simp only [get_price_drop_info, ← hobs]
      have hlast : (b0 :: b1 :: bt).getLast? = some ((b1 :: bt).getLastD b0) := by
        rw [List.getLast?_cons_cons, List.getLastD_eq_getLast?]
        cases hl2 : (b1 :: bt).getLast? with
        | none => simp at hl2
        | some z => rfl
      have hmem : b0 ∈ history := by
        have h1m : b0 ∈ sortByObserved (history.filter (fun h =>
            h.property_id == pid && decide (now - lookback * 86400 ≤ h.observed_at))) := by
          rw [← hobs]
          exact List.mem_cons_self _ _
        rw [sortByObserved] at h1m
        exact (List.mem_filter.mp ((mem_sortLe _ _ _).mp h1m)).1
      have hfpos : 0 < b0.price := hpos b0 hmem
      refine ⟨?_, ?_, ?_, ?_⟩
      · intro hlen
        simp only [List.length_cons] at hlen
        omega
      · intro _
        rw [hif]
        split <;> rfl
      · intro hf hl hhf hhl
        obtain rfl : hf = b0 := by simpa using hhf.symm
        have : hl = (b1 :: bt).getLastD hf := by
          rw [hhl] at hlast
          simpa using hlast
        subst this
        constructor
        · intro hdrop
          rw [hif, if_pos hdrop]
        · intro hle
          rw [hif, if_neg (by omega)]
      · intro d hd
        rw [hif] at hd
        by_cases hdrop : b0.price > ((b1 :: bt).getLastD b0).price
        · rw [if_pos hdrop] at hd
          obtain rfl : d = (((b0.price : ℚ) - (((b1 :: bt).getLastD b0).price : ℚ)) /
              (b0.price : ℚ)) * 100 := by simpa using hd.symm
          have hnum : (0 : ℚ) < (b0.price : ℚ) - (((b1 :: bt).getLastD b0).price : ℚ) := by
            rw [sub_pos]
            exact_mod_cast hdrop
          have hden : (0 : ℚ) < (b0.price : ℚ) := by exact_mod_cast hfpos
          have := div_pos hnum hden
          linarith
        · rw [if_neg hdrop] at hd
          simp at hd

/-- Witness for `price_drop_info_spec`: a two-observation history inside the
window reports the observation count 2. -/
theorem price_drop_info_spec_witness :
    (get_price_drop_info twoObsHistory 1 (10 * 86400) 90).2 =
      (sortByObserved (twoObsHistory.filter (fun h =>
        h.property_id == 1 &&
          decide ((10 * 86400 : Int) - 90 * 86400 ≤ h.observed_at)))).length := by
  have h := price_drop_info_spec twoObsHistory 1 (10 * 86400) 90 (by decide)
    (sortByObserved (twoObsHistory.filter (fun h =>
      h.property_id == 1 &&
        decide ((10 * 86400 : Int) - 90 * 86400 ≤ h.observed_at)))) rfl
  exact h.2.1 (by decide)

/-! ### C8: score bounds -/

/-- C8 counterexample: the zero-score guard tests `not property.price` —
Python truthiness — so a row whose stored price is negative (with positive
living area) slips through: the score is 32 with a full component
breakdown, not 0.0 with none.  The `[0, 100]` bounds moreover need
nonnegative days on market: `get_days_on_market` floors
`(utcnow - scraped_at).days`, negative for a future `scraped_at`, and a
negative days value drives the days subscore and the composite below 0
(days = -3000 scores -768). -/
theorem undervalue_score_negative_price_not_zero :
    (calculate_undervalue_score negativePriceProp none 0 none 0).1 = 32
    ∧ (calculate_undervalue_score negativePriceProp none 0 none 0).2 ≠ []
    ∧ ¬ (∃ pr : Int, negativePriceProp.price = some pr ∧ 0 < pr)
    ∧ (calculate_undervalue_score samplePropRow none (-3000) none 0).1 < 0 := by
  refine ⟨?_, ?_, ?_, ?_⟩
  · simp +decide [calculate_undervalue_score, negativePriceProp, samplePropRow,
      pps_subscore, dom_subscore, drop_subscore, calculate_z_score]
    norm_num
  · simp +decide [calculate_undervalue_score, negativePriceProp, samplePropRow,
      pps_subscore, dom_subscore, drop_subscore, calculate_z_score]
  · rintro ⟨pr, hpr, hpos⟩
    cases hpr
    exact absurd hpos (by decide)
  · have hres : (calculate_undervalue_score samplePropRow none (-3000) none 0).1 =
        pps_subscore (((300000 : Int) : ℚ) / ((100 : Int) : ℚ)) none * (40 / 100) +
          dom_subscore (-3000) * (20 / 100) + drop_subscore none * (40 / 100) := by
      simp +decide [calculate_undervalue_score, samplePropRow]
    have hdom : dom_subscore (-3000) = -4000 := by
      simp only [dom_subscore]
      rw [if_pos (by decide : ((-3000 : Int) ≤ 30))]
      rw [show (((-3000 : Int) : ℚ) / 30) * 40 = -4000 by norm_num]
      exact min_eq_right (by norm_num)
    rw [hres, hdom,
      show pps_subscore (((300000 : Int) : ℚ) / ((100 : Int) : ℚ)) none = 50 from rfl,
      show drop_subscore none = 30 from rfl]
    norm_num

/-- The price-per-sqm subscore lies in `[0, 100]` for every input. -/
theorem pps_subscore_bounds (pps : ℚ) (stats : Option ComparableGroup) :
    0 ≤ pps_subscore pps stats ∧ pps_subscore pps stats ≤ 100 := by
  rcases stats with _ | st
  · simp only [pps_subscore]
    norm_num
  · simp only [pps_subscore]
    split_ifs
    · exact ⟨le_max_left _ _, max_le (by norm_num) (min_le_left _ _)⟩
    · norm_num

/-- The days-on-market subscore lies in `[0, 100]` for every nonnegative
days value. -/
theorem dom_subscore_bounds (days : Int) (hd : 0 ≤ days) :
    0 ≤ dom_subscore days ∧ dom_subscore days ≤ 100 := by
  have hq : (0 : ℚ) ≤ (days : ℚ) := by exact_mod_cast hd
  unfold dom_subscore
  split_ifs with h1 h2
  · constructor
    · exact le_min (by norm_num)
        (mul_nonneg (div_nonneg hq (by norm_num)) (by norm_num))
    · exact le_trans (min_le_left _ _) (by norm_num)
  · have h1q : (30 : ℚ) < (days : ℚ) := by exact_mod_cast not_le.mp h1
    have h2q : (days : ℚ) ≤ 60 := by exact_mod_cast h2
    have hterm : ((days : ℚ) - 30) / 30 * 30 = (days : ℚ) - 30 := by ring
    rw [hterm]
    constructor <;> linarith
  · have h2q : (60 : ℚ) < (days : ℚ) := by
      exact_mod_cast not_le.mp h2
    constructor
    · have : (0 : ℚ) ≤ min 30 (((days : ℚ) - 60) / 60 * 30) :=
        le_min (by norm_num)
          (mul_nonneg (div_nonneg (by linarith) (by norm_num)) (by norm_num))
      linarith
    · have : min 30 (((days : ℚ) - 60) / 60 * 30) ≤ 30 := min_le_left _ _
      linarith

/-- The price-drop subscore lies in `[0, 100]` for every input. -/
theorem drop_subscore_bounds (drop : Option ℚ) :
    0 ≤ drop_subscore drop ∧ drop_subscore drop ≤ 100 := by
  rcases drop with _ | d
  · simp only [drop_subscore]
    norm_num
  · simp only [drop_subscore]
    split_ifs with h0 h5 h10
    · have hrw : d / 5 * 15 = 3 * d := by ring
      rw [hrw]
      constructor <;> linarith
    · have h5q : (5 : ℚ) < d := not_le.mp h5
      have hrw : (d - 5) / 5 * 15 = 3 * (d - 5) := by ring
      rw [hrw]
      constructor <;> linarith [h10]
    · have h10q : (10 : ℚ) < d := not_le.mp h10
      have hmin0 : (0 : ℚ) ≤ min 10 ((d - 10) / 10 * 10) :=
        le_min (by norm_num)
          (mul_nonneg (div_nonneg (by linarith) (by norm_num)) (by norm_num))
      have hmin10 : min 10 ((d - 10) / 10 * 10) ≤ 10 := min_le_left _ _
      constructor <;> linarith
    · norm_num

/-- Rounding to two decimals maps `[0, 100]` into itself. -/
theorem round2_bounds (q : ℚ) (h0 : 0 ≤ q) (h100 : q ≤ 100) :
    0 ≤ round2 q ∧ round2 q ≤ 100 := by
  unfold round2
  constructor
  · apply div_nonneg _ (by norm_num)
    have hfl : (0 : ℤ) ≤ ⌊q * 100 + 1 / 2⌋ := by
      apply Int.floor_nonneg.mpr
      linarith
    exact_mod_cast hfl
  · rw [div_le_iff₀ (by norm_num : (0 : ℚ) < 100)]
    have hfl : (⌊q * 100 + 1 / 2⌋ : ℤ) ≤ 10000 := by
      calc (⌊q * 100 + 1 / 2⌋ : ℤ) ≤ ⌊(10000 : ℚ) + 1 / 2⌋ := by
            apply Int.floor_le_floor
            linarith
        _ = 10000 := Int.floor_eq_iff.mpr (by norm_num)
    have hflq : ((⌊q * 100 + 1 / 2⌋ : ℤ) : ℚ) ≤ 10000 := by exact_mod_cast hfl
    linarith

/-- C8 (amended): every subscore, every stored component, and the weighted
composite lie within `[0, 100]` for arbitrary cohort statistics and drop
percentages and nonnegative days on market; a missing or zero price, or a
missing or nonpositive living area, yields exactly `(0, no components)` —
though a negative price with positive area slips past the truthiness guard —
and without a usable cohort the price-per-sqm component is exactly the
neutral 50. -/
theorem undervalue_score_bounds (p : PropertyRow) (stats : Option ComparableGroup)
    (days : Int) (drop : Option ℚ) (nobs : Nat) (hd : 0 ≤ days) :
    (0 ≤ (calculate_undervalue_score p stats days drop nobs).1 ∧
      (calculate_undervalue_score p stats days drop nobs).1 ≤ 100)
    ∧ (∀ c ∈ (calculate_undervalue_score p stats days drop nobs).2,
        0 ≤ c.2 ∧ c.2 ≤ 100)
    ∧ ((p.price = none ∨ p.price = some 0 ∨ p.living_area = none ∨
        (∃ la, p.living_area = some la ∧ la ≤ 0)) →
        calculate_undervalue_score p stats days drop nobs = (0, []))
    ∧ (∀ pr la, p.price = some pr → pr ≠ 0 → p.living_area = some la → 0 < la →
        ((stats = none) ∨ (∃ st, stats = some st ∧ st.std_price_per_sqm ≤ 0)) →
        (calculate_undervalue_score p stats days drop nobs).2.head? =
          some ("price_per_sqm_score", 50)) := by
  rcases hpr : p.price with _ | pr
  · have hres : calculate_undervalue_score p stats days drop nobs = (0, []) := by
      simp [calculate_undervalue_score, hpr]
    rw [hres]
    refine ⟨by norm_num, by simp, fun _ => rfl, ?_⟩
    intro pr la hps
    exact absurd hps (by simp)
  · rcases hla : p.living_area with _ | la
    · have hres : calculate_undervalue_score p stats days drop nobs = (0, []) := by
        simp [calculate_undervalue_score, hpr, hla]
      rw [hres]
      refine ⟨by norm_num, by simp, fun _ => rfl, ?_⟩
      intro pr2 la2 _ _ hls
      exact absurd hls (by simp)
    · by_cases hpr0 : pr = 0
      · subst hpr0
        have hres : calculate_undervalue_score p stats days drop nobs = (0, []) := by
          simp [calculate_undervalue_score, hpr, hla]
        rw [hres]
        refine ⟨by norm_num, by simp, fun _ => rfl, ?_⟩
        intro pr2 la2 hps hpr2 _ _
        exact absurd (by simpa using hps.symm) hpr2
      · by_cases hla0 : la ≤ 0
        · have hres : calculate_undervalue_score p stats days drop nobs = (0, []) := by
            by_cases hla00 : la = 0
            · simp [calculate_undervalue_score, hpr, hla, hla00]
            · simp [calculate_undervalue_score, hpr, hla, hpr0, hla00, hla0]
          rw [hres]
          refine ⟨by norm_num, by simp, fun _ => rfl, ?_⟩
          intro pr2 la2 _ _ hls hla2
          obtain rfl : la = la2 := by simpa using hls
          omega
        · have hlapos : 0 < la := by omega
          have hres : calculate_undervalue_score p stats days drop nobs =
              (pps_subscore ((pr : ℚ) / (la : ℚ)) stats * (40 / 100) +
                dom_subscore days * (20 / 100) + drop_subscore drop * (40 / 100),
               [("price_per_sqm_score",
                  round2 (pps_subscore ((pr : ℚ) / (la : ℚ)) stats)),
                ("days_on_market_score", round2 (dom_subscore days)),
                ("price_drop_score", round2 (drop_subscore drop)),
                ("composite",
                  round2 (pps_subscore ((pr : ℚ) / (la : ℚ)) stats * (40 / 100) +
                    dom_subscore days * (20 / 100) +
                    drop_subscore drop * (40 / 100)))]) := by
            simp [calculate_undervalue_score, hpr, hla, hpr0,
              show ¬ la = 0 by omega, show ¬ la ≤ 0 by omega]
          obtain ⟨hA0, hA1⟩ := pps_subscore_bounds ((pr : ℚ) / (la : ℚ)) stats
          obtain ⟨hB0, hB1⟩ := dom_subscore_bounds days hd
          obtain ⟨hC0, hC1⟩ := drop_subscore_bounds drop
          have hcomp0 : 0 ≤ pps_subscore ((pr : ℚ) / (la : ℚ)) stats * (40 / 100) +
              dom_subscore days * (20 / 100) + drop_subscore drop * (40 / 100) := by
            nlinarith
          have hcomp1 : pps_subscore ((pr : ℚ) / (la : ℚ)) stats * (40 / 100) +
              dom_subscore days * (20 / 100) + drop_subscore drop * (40 / 100) ≤ 100 := by
            nlinarith
          rw [hres]
          refine ⟨⟨hcomp0, hcomp1⟩, ?_, ?_, ?_⟩
          · intro c hc
            simp only [List.mem_cons, List.not_mem_nil, or_false] at hc
            rcases hc with rfl | rfl | rfl | rfl
            · exact round2_bounds _ hA0 hA1
            · exact round2_bounds _ hB0 hB1
            · exact round2_bounds _ hC0 hC1
            · exact round2_bounds _ hcomp0 hcomp1
          · intro hbad
            rcases hbad with h | h | h | ⟨la2, hla2, hle2⟩
            · exact absurd h (by simp)
            · exact absurd (by simpa using h) hpr0
            · exact absurd h (by simp)
            · obtain rfl : la = la2 := by simpa using hla2
              omega
          · intro pr2 la2 _ _ _ _ hstats
            have hpps : pps_subscore ((pr : ℚ) / (la : ℚ)) stats = 50 := by
              rcases hstats with rfl | ⟨st, rfl, hst⟩
              · rfl
              · simp only [pps_subscore]
                rw [if_neg (not_lt.mpr hst)]
            simp only [List.head?_cons, hpps, Option.some.injEq, Prod.mk.injEq]
            refine ⟨trivial, ?_⟩
            unfold round2
            norm_num

/-- Witness for `undervalue_score_bounds` at the extreme inputs suggested by
the specification: 10000 days on market and a 99 percent price drop. -/
theorem undervalue_score_bounds_witness :
    0 ≤ (calculate_undervalue_score samplePropRow none 10000 (some 99) 2).1 ∧
      (calculate_undervalue_score samplePropRow none 10000 (some 99) 2).1 ≤ 100 :=
  (undervalue_score_bounds samplePropRow none 10000 (some 99) 2 (by decide)).1

/-! ### C9: ranking query -/

/-- The accumulation loop of the ranking query equals a `filterMap`. -/
theorem scored_foldl_eq_filterMap (analyze : PropertyRow → Option ScoredProperty)
    (min_score : Option ℚ) :
    ∀ (ps : List PropertyRow) (acc : List ScoredProperty),
      ps.foldl (fun acc prop =>
        match analyze prop with
        | none => acc
        | some score_obj =>
          match min_score with
          | none => acc ++ [score_obj]
          | some m =>
            if m ≤ score_obj.composite_score then acc ++ [score_obj] else acc) acc =
      acc ++ ps.filterMap (fun prop =>
        match analyze prop with
        | none => none
        | some s =>
          match min_score with
          | none => some s
          | some m => if m ≤ s.composite_score then some s else none) := by
  intro ps
  induction ps with
  | nil => intro acc; simp
  | cons p rest ih =>
      intro acc
      rw [List.foldl_cons, ih, List.filterMap_cons]
      cases hp : analyze p with
      | none => simp
      | some s =>
          cases min_score with
          | none => simp [List.append_assoc]
          | some m =>
              by_cases hm : m ≤ s.composite_score
              · simp [hm, List.append_assoc]
              · simp [hm]

/-- C9: the ranking query fetches at most twice the limit of filtered active
candidates, skips any candidate whose scoring raises (the `none` results of
the scoring oracle) without aborting, drops results below the minimum score
when given, sorts descending by composite score — ties keeping their fetch
order, witnessed by the per-score filter equation — and truncates to the
limit. -/
theorem find_undervalued_spec (analyze : PropertyRow → Option ScoredProperty)
    (props : List PropertyRow) (cityPred : PropertyRow → Bool)
    (listing_type : String) (min_score : Option ℚ) (limit : Nat)
    (eligible : List ScoredProperty)
    (helig : eligible =
      ((props.filter (candidate_filter listing_type cityPred)).take
        (limit * 2)).filterMap (fun prop =>
          match analyze prop with
          | none => none
          | some s =>
            match min_score with
            | none => some s
            | some m => if m ≤ s.composite_score then some s else none)) :
    find_undervalued_properties analyze props cityPred listing_type min_score limit =
      (sortLe (fun a b => decide (b.composite_score ≤ a.composite_score))
        eligible).take limit
    ∧ (find_undervalued_properties analyze props cityPred listing_type min_score
        limit).length ≤ limit
    ∧ eligible.length ≤ limit * 2
    ∧ (find_undervalued_properties analyze props cityPred listing_type min_score
        limit).Pairwise (fun a b => b.composite_score ≤ a.composite_score)
    ∧ (∀ x ∈ find_undervalued_properties analyze props cityPred listing_type
        min_score limit, ∀ m, min_score = some m → m ≤ x.composite_score)
    ∧ (∀ s : ℚ,
        (sortLe (fun a b => decide (b.composite_score ≤ a.composite_score))
          eligible).filter (fun x => x.composite_score == s) =
        eligible.filter (fun x => x.composite_score == s)) := by
  have hEq : find_undervalued_properties analyze props cityPred listing_type
      min_score limit =
      (sortLe (fun a b => decide (b.composite_score ≤ a.composite_score))
        eligible).take limit := by
    rw [find_undervalued_properties, scored_foldl_eq_filterMap, List.nil_append, helig]
  have htotal : ∀ a b : ScoredProperty,
      decide (b.composite_score ≤ a.composite_score) = false →
      decide (a.composite_score ≤ b.composite_score) = true := by
    intro a b h
    simp only [decide_eq_false_iff_not, not_le] at h
    simp [le_of_lt h]
  have htrans : ∀ a b c : ScoredProperty,
      decide (b.composite_score ≤ a.composite_score) = true →
      decide (c.composite_score ≤ b.composite_score) = true →
      decide (c.composite_score ≤ a.composite_score) = true := by
    intro a b c h1 h2
    simp only [decide_eq_true_eq] at h1 h2 ⊢
    exact le_trans h2 h1
  refine ⟨hEq, ?_, ?_, ?_, ?_, ?_⟩
  · rw [hEq, List.length_take]
    exact min_le_left _ _
  · rw [helig]
    exact le_trans (List.length_filterMap_le _ _)
      (le_trans (List.length_take_le _ _) (le_refl _))
  · rw [hEq]
    have hp := pairwise_sortLe
      (fun a b : ScoredProperty => decide (b.composite_score ≤ a.composite_score))
      htotal htrans eligible
    have hs := List.Pairwise.sublist (List.take_sublist limit _) hp
    exact hs.imp (fun h => of_decide_eq_true h)
  · intro x hx m hm
    subst hm
    rw [hEq] at hx
    have hx2 : x ∈ eligible :=
      (mem_sortLe _ _ _).mp (List.mem_of_mem_take hx)
    rw [helig] at hx2
    obtain ⟨prop, _, hf⟩ := List.mem_filterMap.mp hx2
    cases hp : analyze prop with
    | none => rw [hp] at hf; simp at hf
    | some s =>
        rw [hp] at hf
        by_cases hms : m ≤ s.composite_score
        · simp only [hms, if_true] at hf
          obtain rfl : s = x := by simpa using hf
          exact hms
        · simp [hms] at hf
  · intro s
    apply filter_sortLe
    intro x y hx hxy
    have hxs : x.composite_score = s := by simpa using hx
    simp only [decide_eq_false_iff_not, not_le] at hxy
    simp only [beq_eq_false_iff_ne, ne_eq]
    intro hys
    rw [hxs] at hxy
    rw [hys] at hxy
    exact lt_irrefl _ hxy

/-- Witness for `find_undervalued_spec` at the specification example (scores
90, 60, 90, 30 with minimum 50): every returned property scores at least
50. -/
theorem find_undervalued_spec_witness :
    (50 : ℚ) ≤ (⟨1, 90⟩ : ScoredProperty).composite_score := by
  have h := find_undervalued_spec rankAnalyze rankProps (fun _ => true) "buy"
    (some 50) 50 _ rfl
  exact h.2.2.2.2.1 ⟨1, 90⟩ (by decide) 50 rfl

/-- C9 counterexample: the fetch condition of the ranking query demands
only `price IS NOT NULL` (analyzer.py line 361), not a positive price, so
an active buy candidate whose stored price is 0 passes the filter and is
scored and ranked; the claim's "positive price" fetch condition does not
hold (living area is indeed required present and positive, line 363). -/
theorem zero_price_candidate_ranked :
    candidate_filter "buy" (fun _ => true) zeroPriceProp = true
    ∧ find_undervalued_properties zeroPriceAnalyze [zeroPriceProp] (fun _ => true)
        "buy" none 50 = [{ property_id := 9, composite_score := 50 }]
    ∧ zeroPriceProp.price = some 0
    ∧ ¬ (0 < (0 : Int)) := by
  refine ⟨by decide, by decide, rfl, by decide⟩

/-! ### C10: batch validation -/

/-- C10: the batch validation raises `ZeroDivisionError` on the empty input
list — the summary log line divides by the input length — instead of
returning `([], [])`; the claim that no exception escapes for every input
list fails exactly there.  (The repository test suite records the same
behaviour: `test_empty_batch` asserts `pytest.raises(ZeroDivisionError)`.) -/
theorem raw_to_validated_batch_empty_raises {α β : Type}
    (raw_to_validated : α → Option β) :
    raw_to_validated_batch raw_to_validated ([] : List α) =
      Except.error "ZeroDivisionError: division by zero" := rfl

end FundaFinder
